import Mathlib

/-!
Verification of the Clofy-Election-Analysis core against its specification.

The development shallowly embeds the data model and the pure computation
kernels of the repository's React components:
* `src/components/MasterSheet.tsx` — the multi-facet filter engine
  (`processedData`), the sort comparator, and the per-category win-rate
  aggregation (`statsData`);
* `src/components/AdvancedVisuals.tsx` (a concatenation of
  `AdvancedVisuals`, `ConstituencyMap` and `Dashboard`) — the geographic
  name normalizer (`getNormalizedName`), the map's winner filter
  (`filteredData`), the reconciliation index (`resultsMap`) and the
  per-party seat counts (`partyWins`).

JavaScript semantics are modelled explicitly: nullable CSV cells are
`Option` values (PapaParse with `dynamicTyping` yields `null` for empty
cells), numbers are rationals, the `||` fallback and `!x` truthiness
follow JS falsiness (`null`/`""`/`0`), and `Array.prototype.sort` (stable
since ES2019) is modelled by `List.mergeSort`, which Lean proves stable.
-/

/-- A dynamically-typed JavaScript value, as produced by PapaParse
`dynamicTyping` for the boolean-like history columns and as consumed by
the sort comparator.  JS `NaN` does not arise for parsed CSV values that
reach the modelled code paths. -/
inductive JsVal where
  | jnum (q : ℚ)
  | jstr (s : String)
  | jbool (b : Bool)
  | jnull
deriving DecidableEq

/-- JS truthiness of a value (`Boolean(v)`). -/
def JsVal.truthy : JsVal → Bool
  | .jnum q => q != 0
  | .jstr s => s != ""
  | .jbool b => b
  | .jnull => false

/-- JS `String(n)` for a number.  Integral values render exactly as JS
does; non-integral values use a `num/den` form (no claim depends on the
rendering of non-integral numbers). -/
def jsNumToString (q : ℚ) : String :=
  if q.den = 1 then toString q.num else toString q.num ++ "/" ++ toString q.den

/-- JS `String(v)`. -/
def JsVal.jsToString : JsVal → String
  | .jnum q => jsNumToString q
  | .jstr s => s
  | .jbool b => if b then "true" else "false"
  | .jnull => "null"

/-- The JS `||` fallback on nullable strings: `a || b` takes `b` when `a`
is `null` or the empty string. -/
def jsOrStr (a b : Option String) : Option String :=
  match a with
  | some s => if s = "" then b else some s
  | none => b

/-- The JS `||` fallback on nullable numbers: `a || b` takes `b` when `a`
is `null` or `0`. -/
def jsOrNum (a b : Option ℚ) : Option ℚ :=
  match a with
  | some q => if q = 0 then b else some q
  | none => b

/-- JS falsiness of a nullable number (`!x` for `x : number | null`). -/
def jsFalsyNum : Option ℚ → Bool
  | none => true
  | some q => q == 0

/-- JS `x < t` where `x` may be `null` (`ToNumber(null) = 0`). -/
def jsLtNum (v : Option ℚ) (t : ℚ) : Bool :=
  decide (v.getD 0 < t)

/-- ASCII lower-casing of a string (`String.prototype.toLowerCase`; the
dataset's Latin names are ASCII and Tamil has no letter case). -/
def jsToLower (s : String) : String :=
  ⟨s.data.map Char.toLower⟩

/-- JS whitespace test for `String.prototype.trim`. -/
def jsIsWS (c : Char) : Bool :=
  c = ' ' || c = '\t' || c = '\n' || c = '\r'

/-- `String.prototype.trim`. -/
def jsTrim (s : String) : String :=
  ⟨((s.data.dropWhile jsIsWS).reverse.dropWhile jsIsWS).reverse⟩

/-- Fuel-driven scanner for `stripAll` (structural recursion on the fuel
so that the kernel can evaluate it). -/
def stripAllAux (pat : List Char) : Nat → List Char → List Char
  | 0, l => l
  | _ + 1, [] => []
  | n + 1, c :: cs =>
    if pat.isPrefixOf (c :: cs) then
      stripAllAux pat n (cs.drop (pat.length - 1))
    else
      c :: stripAllAux pat n cs

/-- Remove every (non-overlapping, left-to-right) occurrence of `pat`
from `l`: the effect of `str.replace(/pat/g, '')` for a literal pattern.
Only used with non-empty patterns. -/
def stripAll (pat l : List Char) : List Char :=
  stripAllAux pat l.length l

/-- Remove the first occurrence of the (lower-case) pattern `pat`,
matched case-insensitively: the effect of `str.replace(/pat/i, '')`. -/
def stripFirstCI (pat : List Char) : List Char → List Char
  | [] => []
  | c :: cs =>
    if ((c :: cs).take pat.length).map Char.toLower = pat then
      cs.drop (pat.length - 1)
    else
      c :: stripFirstCI pat cs

/-- `needle.isEmpty || hay.includes(needle)` on character lists. -/
def containsSub (needle : List Char) : List Char → Bool
  | [] => needle.isEmpty
  | c :: cs => needle.isPrefixOf (c :: cs) || containsSub needle cs

/-- String wrapper for `stripAll`. -/
def jsStripAll (pat s : String) : String :=
  ⟨stripAll pat.data s.data⟩

/-- String wrapper for `stripFirstCI`. -/
def jsStripFirstCI (pat s : String) : String :=
  ⟨stripFirstCI pat.data s.data⟩

/-- String wrapper for `containsSub` (`String.prototype.includes`). -/
def jsIncludes (s needle : String) : Bool :=
  containsSub needle.data s.data

/-- One candidate's result row.  Modelled from the spec: the
`ElectionResult` interface (`src/types/election.ts`) is not among the
provided sources; field names are taken from the components' uses and
field types from §3 of the spec (numeric columns auto-typed, others as
text; every cell may be `null` after CSV parsing).  The boolean-like
history flags are kept dynamically typed, as the components probe them
both by truthiness and by `true`/`1`/`"true"` equality.  The `_TA`
fields are the enrichment step's localized labels. -/
structure ElectionRecord where
  Constituency_Name : Option String := none
  Constituency_Type : Option String := none
  District_Name : Option String := none
  Candidate : Option String := none
  Sex : Option String := none
  Age : Option ℚ := none
  MyNeta_education : Option String := none
  TCPD_Prof_Main : Option String := none
  Party : Option String := none
  Votes : Option ℚ := none
  N_Cand : Option ℚ := none
  Electors : Option ℚ := none
  Turnout_Percentage : Option ℚ := none
  Vote_Share_Percentage : Option ℚ := none
  Margin : Option ℚ := none
  Margin_Percentage : Option ℚ := none
  Contested : Option ℚ := none
  No_Terms : Option ℚ := none
  Deposit_Lost : Option String := none
  Sub_Region : Option String := none
  Position : Option ℚ := none
  Year : Option ℚ := none
  Incumbent : JsVal := .jnull
  Turncoat : JsVal := .jnull
  Recontest : JsVal := .jnull
  Constituency_Name_TA : Option String := none
  District_Name_TA : Option String := none
  Party_TA : Option String := none
  Sex_TA : Option String := none
  MyNeta_education_TA : Option String := none
  TCPD_Prof_Main_TA : Option String := none
deriving DecidableEq

/-- A geographic boundary feature's properties, as read by
`getNormalizedName` (`feature.properties.AC_NAME || properties.ac_name`,
`properties.AC_NO || properties.ac_no`). -/
structure GeoFeature where
  AC_NAME : Option String := none
  ac_name : Option String := none
  AC_NO : Option ℚ := none
  ac_no : Option ℚ := none

/-- The static alias table `NAME_MAPPING` of `ConstituencyMap`
(AdvancedVisuals.tsx lines 494–528), verbatim. -/
def NAME_MAPPING : List (String × String) :=
  [("gummidipoondi", "gummidipundi"),
   ("tiruvottiyur", "thiruvottiyur"),
   ("arakkonam", "arakonam"),
   ("sholingur", "sholinghur"),
   ("dr.radhakrishnan naga", "dr. radhakrishnan nagar"),
   ("kilvaithinankuppam(sc", "kilvaithinankuppam"),
   ("gudiyattam", "gudiyatham"),
   ("chepauk-thiruvalliken", "chepauk-thiruvallikeni"),
   ("thiyagarayanagar", "theayagaraya nagar"),
   ("vaniyambadi", "vaniayambadi"),
   ("madurantakam", "maduranthakam"),
   ("palacodu", "palacode"),
   ("rishivandiyam", "rishivandiam"),
   ("viluppuram", "villupuram"),
   ("ulundurpettai", "ulundurpet"),
   ("edappadi", "edapadi"),
   ("tiruchengodu", "tiruchengode"),
   ("senthamangalam", "sendamangalam"),
   ("mettuppalayam", "mettupalayam"),
   ("sirkazhi", "sirkali"),
   ("modakkurichi", "modakurichi"),
   ("thiruvidaimarudur", "thiruvidamarudur"),
   ("coimbatore(north)", "coimbatore north"),
   ("coimbatore(south)", "coimbatore south"),
   ("udumalaipettai", "udumalpet"),
   ("thiruverumbur", "thiruverambur"),
   ("orathanadu", "orathanad"),
   ("thiruthuraipoondi", "thiruthuraipundi"),
   ("nilakkottai", "nilakottai"),
   ("aranthangi", "arantangi"),
   ("aruppukkottai", "aruppukottai"),
   ("mudhukulathur", "mudukulathur"),
   ("palayamkottai", "palayamcottai")]

/-- Association-list lookup (JS object property access). -/
def alistLookup (k : String) : List (String × String) → Option String
  | [] => none
  | (k', v) :: rest => if k' = k then some v else alistLookup k rest

/-- `getNormalizedName` (AdvancedVisuals.tsx lines 530–551): the map
component's name normalizer for geographic features.  Lower-cases,
strips `(sc)`/`(st)` annotations (including the unterminated `(sc`
variant), trims, special-cases the split Tiruchirappalli constituency by
AC number, and finally applies the `NAME_MAPPING` alias table with
fall-through. -/
def getNormalizedName (f : GeoFeature) : String :=
  let name := jsOrStr f.AC_NAME f.ac_name
  let acNo := jsOrNum f.AC_NO f.ac_no
  match name with
  | none => ""
  | some s =>
    if s = "" then ""
    else if jsIncludes (jsToLower s) "tiruchirappalli" && acNo == some 140 then
      "tiruchirapalli (west)"
    else if jsIncludes (jsToLower s) "tiruchirappalli" && acNo == some 141 then
      "tiruchirapalli (east)"
    else
      let normalized :=
        jsTrim (jsStripAll "(sc" (jsStripAll "(st)" (jsStripAll "(sc)" (jsToLower s))))
      (alistLookup normalized NAME_MAPPING).getD normalized

/-- JS `parseInt`: optional leading whitespace and sign, then a maximal
digit prefix; `none` models `NaN` (no digits). -/
def jsParseInt (s : String) : Option ℤ :=
  let l := s.data.dropWhile jsIsWS
  let (sign, l) : ℤ × List Char :=
    match l with
    | '-' :: rest => (-1, rest)
    | '+' :: rest => (1, rest)
    | _ => (1, l)
  let digits := l.takeWhile Char.isDigit
  if digits.isEmpty then none
  else some (sign * (digits.foldl (fun acc c => acc * 10 + (c.toNat - '0'.toNat)) 0 : ℕ))

/-- `['DMK', 'INC', 'VCK', 'CPI', 'CPM', 'CPI(M)', 'IUML', 'KMDK',
'MDMK', 'MMK']` — the DMK-alliance party list of the master sheet's
alliance facet (MasterSheet.tsx line 163). -/
def masterDMKplus : List String :=
  ["DMK", "INC", "VCK", "CPI", "CPM", "CPI(M)", "IUML", "KMDK", "MDMK", "MMK"]

/-- `['ADMK', 'BJP', 'PMK', 'TMC', 'TMC(M)', 'AMMK', 'AIADMK']` — the
ADMK-alliance party list of the master sheet's alliance facet
(MasterSheet.tsx line 166). -/
def masterADMKplus : List String :=
  ["ADMK", "BJP", "PMK", "TMC", "TMC(M)", "AMMK", "AIADMK"]

/-- The combined list tested by the master sheet's `Others` branch
(MasterSheet.tsx line 169). -/
def masterAllianceAll : List String :=
  ["DMK", "INC", "VCK", "CPI", "CPM", "CPI(M)", "IUML", "KMDK", "MDMK", "MMK",
   "ADMK", "BJP", "PMK", "TMC", "TMC(M)", "AMMK", "AIADMK"]

/-- `val === true || val === 1 || String(val).toLowerCase() === 'true'`
(the `isTrue` helper of the candidate-category facet,
MasterSheet.tsx line 189). -/
def jsIsTrue (v : JsVal) : Bool :=
  v == .jbool true || v == .jnum 1 || jsToLower v.jsToString == "true"

/-- The 22 sortable columns of the master sheet's table (the `columns`
array, MasterSheet.tsx lines 275–299); `handleSort` is only ever invoked
with these keys. -/
inductive SortKey where
  | Constituency_Name | Constituency_Type | District_Name | Candidate
  | Sex | Age | MyNeta_education | TCPD_Prof_Main | Party | Votes
  | N_Cand | Electors | Turnout_Percentage | Vote_Share_Percentage
  | Margin | Margin_Percentage | Contested | No_Terms | Deposit_Lost
  | Sub_Region | Position | Year
deriving DecidableEq

/-- `'asc' | 'desc'`. -/
inductive SortDirection where
  | asc | desc
deriving DecidableEq

/-- The master sheet's `SortConfig`. -/
structure SortConfig where
  key : SortKey
  direction : SortDirection
deriving DecidableEq

/-- The master sheet's filter state: one React state cell per facet,
the winners-only override and the optional sort configuration
(MasterSheet.tsx lines 20–46). -/
structure FilterState where
  searchTerm : String := ""
  selectedDistrict : String := "All"
  selectedConstituency : String := "All"
  selectedParty : String := "All"
  selectedPosition : String := "All"
  constituencyType : String := "All"
  selectedYear : String := "All"
  ageRange : String := "All"
  selectedGender : String := "All"
  marginRange : String := "All"
  voteShareRange : String := "All"
  selectedAlliance : String := "All"
  voteCountRange : String := "All"
  selectedCategory : String := "All"
  selectedEducation : String := "All"
  winnersOnly : Bool := false
  sortConfig : Option SortConfig := none

/-- `field?.toLowerCase().includes(lowerTerm)` — one disjunct of the
free-text search (optional chaining makes a `null` field non-matching). -/
def optIncludesLower (v : Option String) (lowerTerm : String) : Bool :=
  match v with
  | none => false
  | some s => jsIncludes (jsToLower s) lowerTerm

/-- The free-text search predicate (MasterSheet.tsx lines 79–90): a
case-insensitive substring match against seven base and localized
fields, any one sufficing. -/
def searchMatch (term : String) (r : ElectionRecord) : Bool :=
  let lowerTerm := jsToLower term
  optIncludesLower r.Constituency_Name lowerTerm ||
  optIncludesLower r.Candidate lowerTerm ||
  optIncludesLower r.Party lowerTerm ||
  optIncludesLower r.District_Name lowerTerm ||
  optIncludesLower r.Constituency_Name_TA lowerTerm ||
  optIncludesLower r.Party_TA lowerTerm ||
  optIncludesLower r.District_Name_TA lowerTerm

/-- The position facet (MasterSheet.tsx lines 105–111): the sentinel
`"DepositLost"` selects vote share < 16.66 instead of an exact position
match; other values are parsed with `parseInt` (`NaN` matches nothing). -/
def positionPred (pos : String) (r : ElectionRecord) : Bool :=
  if pos = "DepositLost" then
    jsLtNum r.Vote_Share_Percentage (mkRat 1666 100)
  else
    match jsParseInt pos with
    | some n => r.Position == some (n : ℚ)
    | none => false

/-- The age facet (MasterSheet.tsx lines 121–130); a falsy (`null` or
`0`) age never matches, unknown range labels match everything. -/
def agePred (range : String) (r : ElectionRecord) : Bool :=
  if jsFalsyNum r.Age then false
  else
    let age := r.Age.getD 0
    if range = "25-40" then decide (25 ≤ age ∧ age ≤ 40)
    else if range = "41-60" then decide (41 ≤ age ∧ age ≤ 60)
    else if range = "61+" then decide (60 < age)
    else true

/-- The margin-bucket facet (MasterSheet.tsx lines 136–145); the leading
`if (!margin) return false` guard makes a `null` — or `0` — margin fail
every bucket. -/
def marginPred (range : String) (r : ElectionRecord) : Bool :=
  if jsFalsyNum r.Margin then false
  else
    let margin := r.Margin.getD 0
    if range = "High" then decide (margin > 50000)
    else if range = "Medium" then decide (10000 ≤ margin ∧ margin ≤ 50000)
    else if range = "Low" then decide (margin < 10000)
    else true

/-- The vote-share-bucket facet (MasterSheet.tsx lines 147–156), with
the same falsiness guard. -/
def voteSharePred (range : String) (r : ElectionRecord) : Bool :=
  if jsFalsyNum r.Vote_Share_Percentage then false
  else
    let share := r.Vote_Share_Percentage.getD 0
    if range = "High" then decide (share > 50)
    else if range = "Medium" then decide (30 ≤ share ∧ share ≤ 50)
    else if range = "Low" then decide (share < 30)
    else true

/-- `const party = item.Party ? item.Party.trim() : ''`
(MasterSheet.tsx line 161): the trimmed party of the alliance facet,
with JS falsiness (`null` or `""`) collapsing to `''`. -/
def masterParty (r : ElectionRecord) : String :=
  match r.Party with
  | some p => if p = "" then "" else jsTrim p
  | none => ""

/-- The master sheet's alliance facet (MasterSheet.tsx lines 159–173):
the trimmed party tested for membership in the fixed party lists;
`Others` is the complement of their union. -/
def masterAlliancePred (alliance : String) (r : ElectionRecord) : Bool :=
  if alliance = "DMK+" then masterDMKplus.contains (masterParty r)
  else if alliance = "ADMK+" then masterADMKplus.contains (masterParty r)
  else if alliance = "Others" then !(masterAllianceAll.contains (masterParty r))
  else true

/-- The vote-count-bucket facet (MasterSheet.tsx lines 175–185). -/
def voteCountPred (range : String) (r : ElectionRecord) : Bool :=
  if jsFalsyNum r.Votes then false
  else
    let votes := r.Votes.getD 0
    if range = ">1L" then decide (votes > 100000)
    else if range = "50k-1L" then decide (50000 ≤ votes ∧ votes ≤ 100000)
    else if range = "10k-50k" then decide (10000 ≤ votes ∧ votes ≤ 50000)
    else if range = "<10k" then decide (votes < 10000)
    else true

/-- The candidate-category facet (MasterSheet.tsx lines 187–196). -/
def categoryPred (cat : String) (r : ElectionRecord) : Bool :=
  if cat = "Incumbent" then jsIsTrue r.Incumbent
  else if cat = "Turncoat" then jsIsTrue r.Turncoat
  else if cat = "Recontest" then jsIsTrue r.Recontest
  else true

/-- The per-facet predicate of the `i`-th filter stage of
`processedData` (MasterSheet.tsx lines 75–205), in source order:
0 search, 1 district, 2 constituency, 3 party, 4 position,
5 constituency type, 6 year, 7 age, 8 gender, 9 margin, 10 vote share,
11 alliance, 12 vote count, 13 category, 14 education,
15 winners-only override.  `item.Year.toString()` would throw on a
`null` year in JS; a `null` year is modelled as non-matching. -/
def stepPred (i : Nat) (S : FilterState) (r : ElectionRecord) : Bool :=
  match i with
  | 0 => searchMatch S.searchTerm r
  | 1 => jsOrStr r.District_Name_TA r.District_Name == some S.selectedDistrict
  | 2 => jsOrStr r.Constituency_Name_TA r.Constituency_Name == some S.selectedConstituency
  | 3 => jsOrStr r.Party_TA r.Party == some S.selectedParty
  | 4 => positionPred S.selectedPosition r
  | 5 => r.Constituency_Type == some S.constituencyType
  | 6 => (match r.Year with
          | some y => jsNumToString y == S.selectedYear
          | none => false)
  | 7 => agePred S.ageRange r
  | 8 => r.Sex == some S.selectedGender
  | 9 => marginPred S.marginRange r
  | 10 => voteSharePred S.voteShareRange r
  | 11 => masterAlliancePred S.selectedAlliance r
  | 12 => voteCountPred S.voteCountRange r
  | 13 => categoryPred S.selectedCategory r
  | 14 => jsOrStr r.MyNeta_education_TA r.MyNeta_education == some S.selectedEducation
  | _ => r.Position == some 1

/-- Whether the `i`-th filter stage is active (the surrounding
`if (facet !== 'All')` guards of `processedData`). -/
def stepGuard (i : Nat) (S : FilterState) : Bool :=
  match i with
  | 0 => S.searchTerm != ""
  | 1 => S.selectedDistrict != "All"
  | 2 => S.selectedConstituency != "All"
  | 3 => S.selectedParty != "All"
  | 4 => S.selectedPosition != "All"
  | 5 => S.constituencyType != "All"
  | 6 => S.selectedYear != "All"
  | 7 => S.ageRange != "All"
  | 8 => S.selectedGender != "All"
  | 9 => S.marginRange != "All"
  | 10 => S.voteShareRange != "All"
  | 11 => S.selectedAlliance != "All"
  | 12 => S.voteCountRange != "All"
  | 13 => S.selectedCategory != "All"
  | 14 => S.selectedEducation != "All"
  | 15 => S.winnersOnly
  | _ => false

/-- One filter stage of `processedData`: when its facet is set, narrow
the running result with the facet's predicate, otherwise pass it
through. -/
def facetStep (i : Nat) (S : FilterState) (R : List ElectionRecord) : List ElectionRecord :=
  if stepGuard i S then R.filter (stepPred i S) else R

/-- The sixteen filter stages of `processedData`
(MasterSheet.tsx lines 75–205), applied in source order. -/
def applyFacets (S : FilterState) (R : List ElectionRecord) : List ElectionRecord :=
  facetStep 15 S (facetStep 14 S (facetStep 13 S (facetStep 12 S
    (facetStep 11 S (facetStep 10 S (facetStep 9 S (facetStep 8 S
      (facetStep 7 S (facetStep 6 S (facetStep 5 S (facetStep 4 S
        (facetStep 3 S (facetStep 2 S (facetStep 1 S (facetStep 0 S R)))))))))))))))

/-- The sort-key value of a record, as read by the comparator
(`a[sortConfig.key]`).  Numeric columns yield numbers, text columns
strings, and a `null` cell `null`. -/
def getField (r : ElectionRecord) : SortKey → JsVal
  | .Constituency_Name => match r.Constituency_Name with | some s => .jstr s | none => .jnull
  | .Constituency_Type => match r.Constituency_Type with | some s => .jstr s | none => .jnull
  | .District_Name => match r.District_Name with | some s => .jstr s | none => .jnull
  | .Candidate => match r.Candidate with | some s => .jstr s | none => .jnull
  | .Sex => match r.Sex with | some s => .jstr s | none => .jnull
  | .Age => match r.Age with | some q => .jnum q | none => .jnull
  | .MyNeta_education => match r.MyNeta_education with | some s => .jstr s | none => .jnull
  | .TCPD_Prof_Main => match r.TCPD_Prof_Main with | some s => .jstr s | none => .jnull
  | .Party => match r.Party with | some s => .jstr s | none => .jnull
  | .Votes => match r.Votes with | some q => .jnum q | none => .jnull
  | .N_Cand => match r.N_Cand with | some q => .jnum q | none => .jnull
  | .Electors => match r.Electors with | some q => .jnum q | none => .jnull
  | .Turnout_Percentage => match r.Turnout_Percentage with | some q => .jnum q | none => .jnull
  | .Vote_Share_Percentage => match r.Vote_Share_Percentage with | some q => .jnum q | none => .jnull
  | .Margin => match r.Margin with | some q => .jnum q | none => .jnull
  | .Margin_Percentage => match r.Margin_Percentage with | some q => .jnum q | none => .jnull
  | .Contested => match r.Contested with | some q => .jnum q | none => .jnull
  | .No_Terms => match r.No_Terms with | some q => .jnum q | none => .jnull
  | .Deposit_Lost => match r.Deposit_Lost with | some s => .jstr s | none => .jnull
  | .Sub_Region => match r.Sub_Region with | some s => .jstr s | none => .jnull
  | .Position => match r.Position with | some q => .jnum q | none => .jnull
  | .Year => match r.Year with | some q => .jnum q | none => .jnull

/-- Sign-level model of the numeric comparator branch (the source
returns `a - b`; only its sign is consumed by the sort). -/
def numCmp (x y : ℚ) : Int :=
  if x < y then -1 else if x = y then 0 else 1

/-- `String.prototype.localeCompare`, modelled as code-point
(lexicographic) comparison. -/
def localeCompare (s t : String) : Int :=
  if s < t then -1 else if s = t then 0 else 1

/-- The sort comparator of `processedData` (MasterSheet.tsx lines
209–224): identical values tie, `null`s sort after everything in either
direction, two numbers compare numerically, anything else compares as
strings. -/
def jsCompare (cfg : SortConfig) (a b : ElectionRecord) : Int :=
  let av := getField a cfg.key
  let bv := getField b cfg.key
  if av == bv then 0
  else if av == .jnull then 1
  else if bv == .jnull then -1
  else
    match av, bv with
    | .jnum x, .jnum y =>
      match cfg.direction with
      | .asc => numCmp x y
      | .desc => numCmp y x
    | _, _ =>
      match cfg.direction with
      | .asc => localeCompare av.jsToString bv.jsToString
      | .desc => localeCompare bv.jsToString av.jsToString

/-- The sort stage of `processedData` (MasterSheet.tsx lines 207–225):
`[...result].sort(comparator)`.  `Array.prototype.sort` is stable
(ES2019); it is modelled by the stable `List.mergeSort`. -/
def sortStep (S : FilterState) (R : List ElectionRecord) : List ElectionRecord :=
  match S.sortConfig with
  | none => R
  | some cfg => R.mergeSort (fun a b => jsCompare cfg a b ≤ 0)

/-- `processedData` (MasterSheet.tsx lines 75–228): the master sheet's
filter engine — search, the facet filters, the winners-only override,
then the optional stable sort. -/
def processedData (S : FilterState) (R : List ElectionRecord) : List ElectionRecord :=
  sortStep S (applyFacets S R)

/-- The DMK-alliance party list of the map's alliance filter
(AdvancedVisuals.tsx line 616). -/
def mapDMKplus : List String :=
  ["DMK", "INC", "VCK", "CPI", "CPM", "CPI(M)", "IUML", "KMDK", "MDMK", "MMK"]

/-- The ADMK-alliance party list of the map's alliance filter
(AdvancedVisuals.tsx line 619) — unlike the master sheet's list, it
omits the `AMMK` and `AIADMK` aliases. -/
def mapADMKplus : List String :=
  ["ADMK", "BJP", "PMK", "TMC", "TMC(M)"]

/-- The combined list tested by the map's `Others` branch
(AdvancedVisuals.tsx line 622). -/
def mapAllianceAll : List String :=
  ["DMK", "INC", "VCK", "CPI", "CPM", "CPI(M)", "IUML", "KMDK", "MDMK", "MMK",
   "ADMK", "BJP", "PMK", "TMC", "TMC(M)"]

/-- `list.includes(party)` where `party` may be `null`. -/
def optIncludedIn (l : List String) (p : Option String) : Bool :=
  match p with
  | some s => l.contains s
  | none => false

/-- The map's alliance filter (AdvancedVisuals.tsx lines 612–626): the
raw `item.Party` (no trim) tested against the map's own party lists. -/
def mapAlliancePred (alliance : String) (r : ElectionRecord) : Bool :=
  if alliance = "DMK+" then optIncludedIn mapDMKplus r.Party
  else if alliance = "ADMK+" then optIncludedIn mapADMKplus r.Party
  else if alliance = "Others" then !(optIncludedIn mapAllianceAll r.Party)
  else true

/-- The map component's filter state (AdvancedVisuals.tsx lines
558–564). -/
structure MapFilterState where
  selectedAlliance : String := "All"
  selectedParty : String := "All"
  marginRange : String := "All"
  constituencyType : String := "All"
  selectedGender : String := "All"
  selectedDistrict : String := "All"
  searchTerm : String := ""

/-- The map's `filteredData` (AdvancedVisuals.tsx lines 600–663):
restrict to winners (`Position === 1`), then apply the map's facet
filters in source order.  The map's search reads
`item.Constituency_Name.toLowerCase()` without optional chaining (a
`null` name would throw in JS; modelled as non-matching) and tests the
localized name against the raw, un-lowercased term. -/
def mapFilteredData (S : MapFilterState) (data : List ElectionRecord) : List ElectionRecord :=
  let winners := data.filter (fun d => d.Position == some 1)
  let w1 := if S.selectedAlliance != "All" then winners.filter (mapAlliancePred S.selectedAlliance) else winners
  let w2 := if S.selectedParty != "All" then w1.filter (fun r => r.Party == some S.selectedParty) else w1
  let w3 := if S.marginRange != "All" then w2.filter (marginPred S.marginRange) else w2
  let w4 := if S.constituencyType != "All" then w3.filter (fun r => r.Constituency_Type == some S.constituencyType) else w3
  let w5 := if S.selectedGender != "All" then w4.filter (fun r => r.Sex == some S.selectedGender) else w4
  let w6 := if S.selectedDistrict != "All" then w5.filter (fun r => r.District_Name == some S.selectedDistrict) else w5
  if S.searchTerm != "" then
    w6.filter (fun r =>
      optIncludesLower r.Constituency_Name (jsToLower S.searchTerm) ||
      (match r.Constituency_Name_TA with
       | some s => jsIncludes s S.searchTerm
       | none => false))
  else w6

/-- One entry of the reconciliation index: a constituency's winner and
(optionally) its rank-2 record. -/
structure RMEntry where
  winner : ElectionRecord
  runnerUp : Option ElectionRecord
deriving DecidableEq

/-- `Map.prototype.set`: replace an existing binding in place or append
a new one. -/
def mapSet (k : String) (v : RMEntry) : List (String × RMEntry) → List (String × RMEntry)
  | [] => [(k, v)]
  | (k', v') :: rest => if k' = k then (k, v) :: rest else (k', v') :: mapSet k v rest

/-- `Map.prototype.get`. -/
def mapGet (k : String) : List (String × RMEntry) → Option RMEntry
  | [] => none
  | (k', v) :: rest => if k' = k then some v else mapGet k rest

/-- The runner-up lookup inside `resultsMap` (AdvancedVisuals.tsx lines
699–702): the FIRST record of the full, unfiltered dataset with the
winner's constituency name and position 2 (`Array.prototype.find`). -/
def findRunnerUp (dataAll : List ElectionRecord) (w : ElectionRecord) : Option ElectionRecord :=
  dataAll.find? (fun d => d.Constituency_Name == w.Constituency_Name && d.Position == some 2)

/-- The winner-side key normalization of `resultsMap`
(AdvancedVisuals.tsx lines 705–709): remove the first `(SC)`/`(ST)`
annotation case-insensitively, trim, lower-case.  (A `null` name would
throw in JS; modelled as the empty string.) -/
def winnerKey (w : ElectionRecord) : String :=
  jsToLower (jsTrim (jsStripFirstCI "(st)" (jsStripFirstCI "(sc)" (w.Constituency_Name.getD ""))))

/-- `resultsMap` (AdvancedVisuals.tsx lines 694–714): the reconciliation
index from normalized constituency name to winner and runner-up, built
from the map's filtered winners; the runner-up is looked up in the full
dataset. -/
def resultsMap (dataAll filtered : List ElectionRecord) : List (String × RMEntry) :=
  filtered.foldl (fun m w => mapSet (winnerKey w) ⟨w, findRunnerUp dataAll w⟩ m) []

/-- The map's per-feature join (`style`/`handleFeatureClick`,
AdvancedVisuals.tsx lines 716–756): normalize the feature's name and
query the reconciliation index built from the current filter state. -/
def reconcile (dataAll : List ElectionRecord) (S : MapFilterState) (f : GeoFeature) : Option RMEntry :=
  mapGet (getNormalizedName f) (resultsMap dataAll (mapFilteredData S dataAll))

/-- JS object-key coercion for the party grouping (`counts[party]`):
a `null` party becomes the key `"null"`. -/
def partyKeyStr : Option String → String
  | some s => s
  | none => "null"

/-- Increment a key's count in an insertion-ordered counter object. -/
def bumpCount (k : String) : List (String × Nat) → List (String × Nat)
  | [] => [(k, 1)]
  | (k', n) :: rest => if k' = k then (k', n + 1) :: rest else (k', n) :: bumpCount k rest

/-- One row of the dashboard's `partyWins` chart data. -/
structure PartyWin where
  name : String
  nameTA : String
  value : Nat
deriving DecidableEq

/-- The dashboard's `partyWins` (AdvancedVisuals.tsx lines 1144–1161):
count `Position === 1` records per party, attach the localized party
name, sort descending by seat count.  The `partyTranslations` table
lives in `src/data/tamilData.ts`, which is not among the provided
sources; modelled from the spec as a lookup parameter whose missing
keys fall back to the original value (§6 Enrichment interface). -/
def partyWins (translate : String → Option String) (data : List ElectionRecord) : List PartyWin :=
  let winners := data.filter (fun d => d.Position == some 1)
  let counts := winners.foldl (fun acc w => bumpCount (partyKeyStr w.Party) acc) []
  let entries : List PartyWin := counts.map (fun p => ⟨p.1, (translate p.1).getD p.1, p.2⟩)
  entries.mergeSort (fun a b => decide (b.value ≤ a.value))

/-- One bar of the master sheet's success-rate chart. -/
structure CatStat where
  name : String
  rate : ℤ
  total : ℕ
  wins : ℕ
deriving DecidableEq

/-- `Math.round` (round half up). -/
def jsRound (q : ℚ) : ℤ :=
  ⌊q + 1 / 2⌋

/-- The per-category win-rate aggregation of `statsData`
(MasterSheet.tsx lines 237–251): for incumbents, turncoats and
recontesting candidates, the contested count (by field truthiness), the
win count (`Position === 1`), and the rounded percentage — guarded to
`0` when the contested count is `0`. -/
def categoryData (data : List ElectionRecord) : List CatStat :=
  let incidents := (data.filter (fun d => d.Incumbent.truthy)).length
  let incumbentWins := (data.filter (fun d => d.Incumbent.truthy && d.Position == some 1)).length
  let turncoats := (data.filter (fun d => d.Turncoat.truthy)).length
  let turncoatWins := (data.filter (fun d => d.Turncoat.truthy && d.Position == some 1)).length
  let recontests := (data.filter (fun d => d.Recontest.truthy)).length
  let recontestWins := (data.filter (fun d => d.Recontest.truthy && d.Position == some 1)).length
  [⟨"Incumbents", if incidents = 0 then 0 else jsRound ((incumbentWins : ℚ) / incidents * 100), incidents, incumbentWins⟩,
   ⟨"Turncoats", if turncoats = 0 then 0 else jsRound ((turncoatWins : ℚ) / turncoats * 100), turncoats, turncoatWins⟩,
   ⟨"Recontesting", if recontests = 0 then 0 else jsRound ((recontestWins : ℚ) / recontests * 100), recontests, recontestWins⟩]

/-- The `statsData` gate (MasterSheet.tsx lines 231–233): when the
filtered set is empty the stats block is `null`; otherwise the
category chart data is computed from the full dataset.  (The education
breakdown of `statsData` is not modelled; no claim concerns it.) -/
def statsData (data processed : List ElectionRecord) : Option (List CatStat) :=
  if processed.length = 0 then none else some (categoryData data)

/-- The DMK winner row of the spec's end-to-end scenario (§8). -/
def dmkChennai : ElectionRecord :=
  { Constituency_Name := some "Chennai", Party := some "DMK",
    Position := some 1, Margin := some 12000, Votes := some 50000 }

/-- The ADMK runner-up row of the spec's end-to-end scenario (§8). -/
def admkChennai : ElectionRecord :=
  { Constituency_Name := some "Chennai", Party := some "ADMK",
    Position := some 2, Votes := some 38000 }

/-- The two-record scenario dataset. -/
def chennaiData : List ElectionRecord := [dmkChennai, admkChennai]

/-- The master-sheet filter state with only `marginRange = "Medium"` set. -/
def stMedium : FilterState := { marginRange := "Medium" }

/-- C7: reservation-annotation stripping in the name normalizer —
`"Chennai (SC)"`, the malformed `"Chennai(SC"` and `"chennai (st)"` all
normalize to the canonical key `"chennai"` (lower-cased, annotation
removed, whitespace trimmed). -/
theorem spec_C7 :
    getNormalizedName { AC_NAME := some "Chennai (SC)" } = "chennai" ∧
    getNormalizedName { AC_NAME := some "Chennai(SC" } = "chennai" ∧
    getNormalizedName { AC_NAME := some "chennai (st)" } = "chennai" := by
  decide

/-- C1: end-to-end scenario — on the two-record Chennai dataset,
reconciling the feature `"Chennai (SC)"` yields the DMK record as winner
and the ADMK record as runner-up; the filter engine with
`marginRange = "Medium"` retains exactly the DMK row; and the per-party
seat-count aggregation on that filtered subset reports one DMK seat. -/
theorem spec_C1 :
    reconcile chennaiData {} { AC_NAME := some "Chennai (SC)", AC_NO := some 7 } =
      some ⟨dmkChennai, some admkChennai⟩ ∧
    processedData stMedium chennaiData = [dmkChennai] ∧
    partyWins (fun _ => none) (processedData stMedium chennaiData) =
      [{ name := "DMK", nameTA := "DMK", value := 1 }] := by
  refine ⟨by decide, by decide, ?_⟩
  have h : processedData stMedium chennaiData = [dmkChennai] := by decide
  rw [h]
  show List.mergeSort [({ name := "DMK", nameTA := "DMK", value := 1 } : PartyWin)] _ = _
  simp

/-- A record whose margin cell holds the number `0`. -/
def zeroMarginRec : ElectionRecord := { Margin := some 0 }

/-- C2 counterexample: a record with margin exactly `0` does have a
margin value and `0 < 10000`, yet the `"Low"` bucket rejects it — the
facet's `if (!margin)` guard treats `0` like a missing value, so the
claimed biconditional "matches Low iff margin < 10000" fails at
margin `0`. -/
theorem spec_C2_counterexample :
    zeroMarginRec.Margin = some 0 ∧ ((0 : ℚ) < 10000) ∧
    marginPred "Low" zeroMarginRec = false := by
  refine ⟨rfl, by norm_num, by decide⟩

/-- C2 (amended): for every record whose margin is present and nonzero,
`"High"` matches iff margin > 50000, `"Medium"` iff margin ∈
[10000, 50000] and `"Low"` iff margin < 10000; a record whose margin is
missing or exactly `0` never matches any bucket; and the boundary
instances 50000 ↦ Medium, 10000 ↦ Medium, 9999 ↦ Low, 50001 ↦ High
hold. -/
theorem spec_C2 :
    (∀ (r : ElectionRecord) (v : ℚ), r.Margin = some v → v ≠ 0 →
      ((marginPred "High" r = true ↔ v > 50000) ∧
       (marginPred "Medium" r = true ↔ 10000 ≤ v ∧ v ≤ 50000) ∧
       (marginPred "Low" r = true ↔ v < 10000))) ∧
    (∀ (r : ElectionRecord) (bucket : String),
      jsFalsyNum r.Margin = true → marginPred bucket r = false) ∧
    marginPred "Medium" { Margin := some 50000 } = true ∧
    marginPred "Medium" { Margin := some 10000 } = true ∧
    marginPred "Low" { Margin := some 9999 } = true ∧
    marginPred "High" { Margin := some 50001 } = true := by
  refine ⟨?_, ?_, by decide, by decide, by decide, by decide⟩
  · intro r v hv hnz
    refine ⟨?_, ?_, ?_⟩ <;> simp [marginPred, jsFalsyNum, hv, hnz]
  · intro r bucket h
    simp [marginPred, h]

/-- Witness for the amended C2, at margin 9999. -/
theorem spec_C2_witness :
    marginPred "Low" { Margin := some (9999 : ℚ) } = true ↔ (9999 : ℚ) < 10000 :=
  (spec_C2.1 { Margin := some 9999 } 9999 rfl (by norm_num)).2.2

/-- C9: the filter's emptiness guard makes a margin of exactly `0` fail
every margin bucket (the `"Low"` bucket included, although `0 < 10000`),
and a vote share of exactly `0` fail every vote-share bucket; hence such
records never survive the respective active filter stage. -/
theorem spec_C9 :
    (∀ (bucket : String) (r : ElectionRecord),
      r.Margin = some 0 → marginPred bucket r = false) ∧
    (∀ (S : FilterState) (R : List ElectionRecord) (r : ElectionRecord),
      S.marginRange ≠ "All" → r.Margin = some 0 → r ∉ facetStep 9 S R) ∧
    (∀ (bucket : String) (r : ElectionRecord),
      r.Vote_Share_Percentage = some 0 → voteSharePred bucket r = false) ∧
    (∀ (S : FilterState) (R : List ElectionRecord) (r : ElectionRecord),
      S.voteShareRange ≠ "All" → r.Vote_Share_Percentage = some 0 → r ∉ facetStep 10 S R) ∧
    ((0 : ℚ) < 10000) := by
  have hm : ∀ (bucket : String) (r : ElectionRecord),
      r.Margin = some 0 → marginPred bucket r = false := by
    intro bucket r h; simp [marginPred, jsFalsyNum, h]
  have hv : ∀ (bucket : String) (r : ElectionRecord),
      r.Vote_Share_Percentage = some 0 → voteSharePred bucket r = false := by
    intro bucket r h; simp [voteSharePred, jsFalsyNum, h]
  refine ⟨hm, ?_, hv, ?_, by norm_num⟩
  · intro S R r hS h hmem
    have hg : stepGuard 9 S = true := by simpa [stepGuard] using hS
    rw [facetStep, hg] at hmem
    simp only [if_true, List.mem_filter] at hmem
    have := hmem.2
    rw [show stepPred 9 S r = marginPred S.marginRange r from rfl, hm _ _ h] at this
    exact Bool.false_ne_true this
  · intro S R r hS h hmem
    have hg : stepGuard 10 S = true := by simpa [stepGuard] using hS
    rw [facetStep, hg] at hmem
    simp only [if_true, List.mem_filter] at hmem
    have := hmem.2
    rw [show stepPred 10 S r = voteSharePred S.voteShareRange r from rfl, hv _ _ h] at this
    exact Bool.false_ne_true this

/-- Witness for C9, at the concrete zero-margin and zero-vote-share
records. -/
theorem spec_C9_witness :
    marginPred "Low" zeroMarginRec = false ∧
    voteSharePred "Low" ({ Vote_Share_Percentage := some 0 } : ElectionRecord) = false :=
  ⟨spec_C9.1 "Low" zeroMarginRec rfl, spec_C9.2.2.1 "Low" { Vote_Share_Percentage := some 0 } rfl⟩

/-- C5: with the position facet at `"DepositLost"`, a record matches iff
its vote share is strictly below 16.66 (so 16.65 matches, 16.66 does
not), and the predicate depends only on the vote share — in particular
not on the record's position number. -/
theorem spec_C5 :
    (∀ (r : ElectionRecord) (q : ℚ), r.Vote_Share_Percentage = some q →
      (positionPred "DepositLost" r = true ↔ q < 16.66)) ∧
    positionPred "DepositLost" { Vote_Share_Percentage := some (16.65 : ℚ) } = true ∧
    positionPred "DepositLost" { Vote_Share_Percentage := some (16.66 : ℚ) } = false ∧
    (∀ (r r' : ElectionRecord), r.Vote_Share_Percentage = r'.Vote_Share_Percentage →
      positionPred "DepositLost" r = positionPred "DepositLost" r') := by
  have hthr : (mkRat 1666 100) = (16.66 : ℚ) := by norm_num [mkRat, Rat.normalize]
  refine ⟨?_, ?_, ?_, ?_⟩
  · intro r q h
    simp [positionPred, jsLtNum, h, hthr]
  · simp [positionPred, jsLtNum, hthr]
    norm_num
  · simp [positionPred, jsLtNum, hthr]
  · intro r r' h
    simp [positionPred, jsLtNum, h]

/-- Witness for C5, at vote share 10. -/
theorem spec_C5_witness :
    positionPred "DepositLost" ({ Vote_Share_Percentage := some 10 } : ElectionRecord) = true ↔
      (10 : ℚ) < 16.66 :=
  spec_C5.1 { Vote_Share_Percentage := some 10 } 10 rfl

/-- The master sheet's and the map's DMK-alliance lists coincide. -/
lemma dmk_lists_eq : masterDMKplus = mapDMKplus := rfl

/-- The master sheet's `Others` list is the union of its two alliance
lists. -/
lemma masterAll_split (p : String) :
    p ∈ masterAllianceAll ↔ p ∈ masterDMKplus ∨ p ∈ masterADMKplus := by
  simp [masterAllianceAll, masterDMKplus, masterADMKplus, or_assoc]

/-- The map's `Others` list is the union of its two alliance lists. -/
lemma mapAll_split (p : String) :
    p ∈ mapAllianceAll ↔ p ∈ mapDMKplus ∨ p ∈ mapADMKplus := by
  simp [mapAllianceAll, mapDMKplus, mapADMKplus, or_assoc]

/-- The master sheet's two alliance lists are disjoint. -/
lemma master_disj (p : String) (hd : p ∈ masterDMKplus) (ha : p ∈ masterADMKplus) : False := by
  simp [masterDMKplus] at hd
  simp [masterADMKplus] at ha
  rcases hd with rfl | rfl | rfl | rfl | rfl | rfl | rfl | rfl | rfl | rfl <;> simp_all

/-- The map's two alliance lists are disjoint. -/
lemma map_disj (p : String) (hd : p ∈ mapDMKplus) (ha : p ∈ mapADMKplus) : False := by
  simp [mapDMKplus] at hd
  simp [mapADMKplus] at ha
  rcases hd with rfl | rfl | rfl | rfl | rfl | rfl | rfl | rfl | rfl | rfl <;> simp_all

/-- Away from the `AMMK`/`AIADMK` aliases, the two ADMK-alliance lists
agree on membership. -/
lemma admk_contains_agree (p : String) (h1 : p ≠ "AMMK") (h2 : p ≠ "AIADMK") :
    masterADMKplus.contains p = mapADMKplus.contains p := by
  simp only [List.contains, List.elem_eq_mem, decide_eq_decide]
  simp [masterADMKplus, mapADMKplus, h1, h2]

/-- Away from the `AMMK`/`AIADMK` aliases, the two `Others` complement
lists agree on membership. -/
lemma all_contains_agree (p : String) (h1 : p ≠ "AMMK") (h2 : p ≠ "AIADMK") :
    masterAllianceAll.contains p = mapAllianceAll.contains p := by
  simp only [List.contains, List.elem_eq_mem, decide_eq_decide]
  simp [masterAllianceAll, mapAllianceAll, h1, h2]

/-- A record whose party is the `AIADMK` alias: the master sheet files
it under `ADMK+`, the map under `Others`. -/
def aiadmkRec : ElectionRecord := { Party := some "AIADMK" }

/-- A record whose party carries leading whitespace: the master sheet
trims it, the map does not. -/
def paddedDmkRec : ElectionRecord := { Party := some " DMK" }

/-- C3 counterexample: the master-sheet alliance predicate and the map
alliance predicate disagree — the party `"AIADMK"` is `ADMK+` for the
master sheet but `Others` for the map (whose list omits the alias), and
the whitespace-padded `" DMK"` is `DMK+` only for the master sheet
(which trims). -/
theorem spec_C3_counterexample :
    (masterAlliancePred "ADMK+" aiadmkRec = true ∧
     mapAlliancePred "ADMK+" aiadmkRec = false ∧
     mapAlliancePred "Others" aiadmkRec = true) ∧
    (masterAlliancePred "DMK+" paddedDmkRec = true ∧
     mapAlliancePred "DMK+" paddedDmkRec = false) := by
  decide

/-- C3 (amended): for records whose party is already trimmed and is
neither `AMMK` nor `AIADMK`, the master sheet's and the map's alliance
predicates agree on every alliance value; and within each component the
three alliance values partition the records — every record matches
exactly one of `DMK+`, `ADMK+`, `Others`. -/
theorem spec_C3 :
    (∀ (r : ElectionRecord),
      (match r.Party with
       | some p => jsTrim p = p ∧ p ≠ "AMMK" ∧ p ≠ "AIADMK"
       | none => True) →
      ∀ a, masterAlliancePred a r = mapAlliancePred a r) ∧
    (∀ r : ElectionRecord,
      (["DMK+", "ADMK+", "Others"].countP (fun a => masterAlliancePred a r)) = 1) ∧
    (∀ r : ElectionRecord,
      (["DMK+", "ADMK+", "Others"].countP (fun a => mapAlliancePred a r)) = 1) := by
  refine ⟨?_, ?_, ?_⟩
  · intro r hy a
    rcases hp : r.Party with _ | p
    · have hparty : masterParty r = "" := by simp [masterParty, hp]
      simp only [masterAlliancePred, mapAlliancePred, hparty, hp, optIncludedIn]
      split_ifs <;> decide
    · rw [hp] at hy
      obtain ⟨htrim, h1, h2⟩ := hy
      have hparty : masterParty r = p := by
        simp only [masterParty, hp]
        split_ifs with h
        · exact h.symm
        · exact htrim
      simp only [masterAlliancePred, mapAlliancePred, hparty, hp, optIncludedIn]
      split_ifs
      · rw [dmk_lists_eq]
      · exact admk_contains_agree p h1 h2
      · rw [all_contains_agree p h1 h2]
      · rfl
  · intro r
    by_cases hd : masterParty r ∈ masterDMKplus <;>
      by_cases ha : masterParty r ∈ masterADMKplus
    · exact (master_disj _ hd ha).elim
    all_goals
      simp [List.countP_cons, masterAlliancePred, masterAll_split, hd, ha]
  · intro r
    rcases hp : r.Party with _ | p
    · simp [List.countP_cons, mapAlliancePred, optIncludedIn, hp]
    · by_cases hd : p ∈ mapDMKplus <;> by_cases ha : p ∈ mapADMKplus
      · exact (map_disj _ hd ha).elim
      all_goals
        simp [List.countP_cons, mapAlliancePred, optIncludedIn, hp, mapAll_split, hd, ha]

/-- Witness for the amended C3, at the scenario's DMK record. -/
theorem spec_C3_witness :
    masterAlliancePred "ADMK+" dmkChennai = mapAlliancePred "ADMK+" dmkChennai :=
  spec_C3.1 dmkChennai (by exact ⟨by decide, by decide, by decide⟩) "ADMK+"

/-- C8: win-rate zero-safety — every entry of the per-category win-rate
aggregation (incumbents, turncoats, recontesting) has rate `0` when its
contested total is `0`, and otherwise the rounded percentage
`wins / total * 100`; the computation is total (no NaN or division
fault is possible). -/
theorem spec_C8 :
    ∀ (data : List ElectionRecord), ∀ c ∈ categoryData data,
      (c.total = 0 → c.rate = 0) ∧
      (c.total ≠ 0 → c.rate = jsRound ((c.wins : ℚ) / (c.total : ℚ) * 100)) := by
  intro data c hc
  simp only [categoryData, List.mem_cons, List.not_mem_nil, or_false] at hc
  rcases hc with rfl | rfl | rfl <;>
    refine ⟨fun h => ?_, fun h => ?_⟩ <;> simp_all

/-- Witness for C8: on the empty dataset the incumbent category has zero
contested candidates and rate `0`. -/
theorem spec_C8_witness :
    ({ name := "Incumbents", rate := 0, total := 0, wins := 0 } : CatStat).rate = 0 :=
  (spec_C8 [] { name := "Incumbents", rate := 0, total := 0, wins := 0 } (by decide)).1 rfl

/-- `mapGet` after `mapSet`: the looked-up entry is either the newly
stored value or was already present. -/
lemma mapGet_mapSet_cases (k k' : String) (v e : RMEntry) :
    ∀ m : List (String × RMEntry),
      mapGet k (mapSet k' v m) = some e → e = v ∨ mapGet k m = some e := by
  intro m
  induction m with
  | nil =>
    intro h
    by_cases hk : k' = k
    · simp only [mapSet, mapGet, if_pos hk] at h
      exact Or.inl (Option.some_injective _ h).symm
    · simp only [mapSet, mapGet, if_neg hk] at h
      exact Option.noConfusion h
  | cons kv rest ih =>
    obtain ⟨a, b⟩ := kv
    intro h
    by_cases hak : a = k'
    · simp only [mapSet, if_pos hak] at h
      by_cases hkk : k' = k
      · simp only [mapGet, if_pos hkk] at h
        exact Or.inl (Option.some_injective _ h).symm
      · simp only [mapGet, if_neg hkk] at h
        right
        rw [mapGet, if_neg (hak ▸ hkk)]
        exact h
    · simp only [mapSet, if_neg hak] at h
      by_cases hck : a = k
      · simp only [mapGet, if_pos hck] at h ⊢
        exact Or.inr h
      · simp only [mapGet, if_neg hck] at h ⊢
        exact ih h

/-- Every entry of the reconciliation index pairs the winner with the
`find?`-style runner-up lookup over the full dataset. -/
lemma resultsMap_entry (dataAll : List ElectionRecord) :
    ∀ (filtered : List ElectionRecord) (m : List (String × RMEntry)),
      (∀ k e, mapGet k m = some e → e.runnerUp = findRunnerUp dataAll e.winner) →
      ∀ k e,
        mapGet k (filtered.foldl
          (fun m w => mapSet (winnerKey w) ⟨w, findRunnerUp dataAll w⟩ m) m) = some e →
        e.runnerUp = findRunnerUp dataAll e.winner := by
  intro filtered
  induction filtered with
  | nil => intro m hm k e h; exact hm k e h
  | cons w ws ih =>
    intro m hm k e h
    refine ih _ ?_ k e h
    intro k' e' h'
    rcases mapGet_mapSet_cases k' (winnerKey w) ⟨w, findRunnerUp dataAll w⟩ e' m h' with rfl | hold
    · rfl
    · exact hm k' e' hold

/-- The four-record, two-year Chennai dataset exhibiting cross-year
runner-up pairing: 2016 winner/runner-up then 2021 winner/runner-up. -/
def chn2016w : ElectionRecord :=
  { Constituency_Name := some "Chennai", Party := some "ADMK", Candidate := some "A",
    Position := some 1, Year := some 2016 }

/-- The 2016 rank-2 record of the cross-year dataset. -/
def chn2016r : ElectionRecord :=
  { Constituency_Name := some "Chennai", Party := some "DMK", Candidate := some "B",
    Position := some 2, Year := some 2016 }

/-- The 2021 winner of the cross-year dataset. -/
def chn2021w : ElectionRecord :=
  { Constituency_Name := some "Chennai", Party := some "DMK", Candidate := some "B",
    Position := some 1, Year := some 2021 }

/-- The 2021 rank-2 record of the cross-year dataset. -/
def chn2021r : ElectionRecord :=
  { Constituency_Name := some "Chennai", Party := some "ADMK", Candidate := some "A",
    Position := some 2, Year := some 2021 }

/-- The cross-year dataset in input order. -/
def multiYearData : List ElectionRecord := [chn2016w, chn2016r, chn2021w, chn2021r]

/-- C10: the runner-up paired with each winner in the reconciliation
index is the first record, in input order, of the full unfiltered
dataset with the winner's constituency name and position 2 (and when no
such record exists, there is no runner-up); the lookup ignores filters
and year, so the 2021 Chennai winner is paired with the 2016 rank-2
record in the two-year dataset. -/
theorem spec_C10 :
    (∀ (dataAll filtered : List ElectionRecord) (k : String) (e : RMEntry),
      mapGet k (resultsMap dataAll filtered) = some e →
      ((∀ ru, e.runnerUp = some ru →
          (ru.Constituency_Name == e.winner.Constituency_Name &&
            ru.Position == some (2 : ℚ)) = true ∧
          ∃ l1 l2, dataAll = l1 ++ ru :: l2 ∧
            ∀ x ∈ l1, (x.Constituency_Name == e.winner.Constituency_Name &&
              x.Position == some (2 : ℚ)) = false) ∧
       (e.runnerUp = none →
          ∀ x ∈ dataAll, (x.Constituency_Name == e.winner.Constituency_Name &&
            x.Position == some (2 : ℚ)) = false))) ∧
    (mapGet "chennai" (resultsMap multiYearData [chn2021w]) =
        some ⟨chn2021w, some chn2016r⟩ ∧
      chn2016r.Year = some 2016 ∧ chn2021w.Year = some 2021) := by
  constructor
  · intro dataAll filtered k e hme
    have hru : e.runnerUp = findRunnerUp dataAll e.winner := by
      refine resultsMap_entry dataAll filtered [] ?_ k e hme
      intro k' e' h'
      simp [mapGet] at h'
    constructor
    · intro ru hsome
      rw [hru] at hsome
      rw [findRunnerUp, List.find?_eq_some] at hsome
      obtain ⟨hp, as, bs, heq, hall⟩ := hsome
      refine ⟨hp, as, bs, heq, fun x hx => ?_⟩
      have h2 := hall x hx
      cases hb : (x.Constituency_Name == e.winner.Constituency_Name &&
          x.Position == some (2 : ℚ)) with
      | false => rfl
      | true => rw [hb] at h2; simp at h2
    · intro hnone
      rw [hru] at hnone
      rw [findRunnerUp, List.find?_eq_none] at hnone
      intro x hx
      exact Bool.eq_false_iff.mpr (hnone x hx)
  · exact ⟨by decide, rfl, rfl⟩

/-- Witness for C10: the general first-match characterization applied
to the cross-year dataset pairs the 2021 winner with the 2016 rank-2
record, the first position-2 Chennai row of the input. -/
theorem spec_C10_witness :
    (chn2016r.Constituency_Name == chn2021w.Constituency_Name &&
      chn2016r.Position == some (2 : ℚ)) = true ∧
    ∃ l1 l2, multiYearData = l1 ++ chn2016r :: l2 ∧
      ∀ x ∈ l1, (x.Constituency_Name == chn2021w.Constituency_Name &&
        x.Position == some (2 : ℚ)) = false :=
  (spec_C10.1 multiYearData [chn2021w] "chennai" ⟨chn2021w, some chn2016r⟩ (by decide)).1
    chn2016r rfl

/-- Membership in a filter stage's output implies membership in its
input. -/
lemma mem_of_mem_facetStep {i : Nat} {S : FilterState} {R : List ElectionRecord}
    {r : ElectionRecord} (h : r ∈ facetStep i S R) : r ∈ R := by
  rw [facetStep] at h
  split at h
  · exact List.mem_of_mem_filter h
  · exact h

/-- Membership in the sort stage's output implies membership in its
input (the sort permutes). -/
lemma mem_of_mem_sortStep {S : FilterState} {R : List ElectionRecord}
    {r : ElectionRecord} (h : r ∈ sortStep S R) : r ∈ R := by
  rw [sortStep] at h
  split at h
  · exact h
  · exact List.mem_mergeSort.mp h

/-- C4: filter-engine composition — the engine's output is always a
subset of its input, and any two filter stages commute (so independent
facets may be applied in either order with the same result). -/
theorem spec_C4 :
    (∀ (S : FilterState) (R : List ElectionRecord) (r : ElectionRecord),
      r ∈ processedData S R → r ∈ R) ∧
    (∀ (i j : Nat) (S : FilterState) (R : List ElectionRecord),
      facetStep i S (facetStep j S R) = facetStep j S (facetStep i S R)) := by
  constructor
  · intro S R r h
    rw [processedData, applyFacets] at h
    replace h := mem_of_mem_sortStep h
    iterate 16 replace h := mem_of_mem_facetStep h
    exact h
  · intro i j S R
    rw [facetStep, facetStep]
    by_cases gi : stepGuard i S <;> by_cases gj : stepGuard j S <;>
      simp [facetStep, gi, gj, List.filter_filter]
    exact List.filter_congr fun a _ => Bool.and_comm _ _

/-- Witness for C4: the scenario's DMK record survives the medium-margin
filter and remains an element of the input dataset, and the margin stage
commutes with the winners-only stage on the scenario data. -/
theorem spec_C4_witness :
    dmkChennai ∈ chennaiData ∧
    facetStep 9 stMedium (facetStep 15 stMedium chennaiData) =
      facetStep 15 stMedium (facetStep 9 stMedium chennaiData) :=
  ⟨spec_C4.1 stMedium chennaiData dmkChennai (by decide),
   spec_C4.2 9 15 stMedium chennaiData⟩

/-- `numCmp` is negative exactly on strictly smaller inputs. -/
lemma numCmp_lt_iff (x y : ℚ) : numCmp x y < 0 ↔ x < y := by
  unfold numCmp
  split_ifs with h1 h2
  · simp [h1]
  · simp [h2]
  · simp [h1]

/-- `numCmp` is zero exactly on equal inputs. -/
lemma numCmp_eq_iff (x y : ℚ) : numCmp x y = 0 ↔ x = y := by
  unfold numCmp
  split_ifs with h1 h2
  · simp [ne_of_lt h1]
  · simp [h2]
  · simp [h2]

/-- `localeCompare` is negative exactly on strictly smaller strings. -/
lemma localeCompare_lt_iff (s t : String) : localeCompare s t < 0 ↔ s < t := by
  unfold localeCompare
  split_ifs with h1 h2
  · simp [h1]
  · simp [h2]
  · simp [h1]

/-- `localeCompare` is zero exactly on equal strings. -/
lemma localeCompare_eq_iff (s t : String) : localeCompare s t = 0 ↔ s = t := by
  unfold localeCompare
  split_ifs with h1 h2
  · simp [ne_of_lt h1]
  · simp [h2]
  · simp [h2]

/-- The comparator on two numeric key values reduces to the
direction-adjusted numeric comparison. -/
lemma jsCompare_num_num (cfg : SortConfig) (a b : ElectionRecord) (qa qb : ℚ)
    (ha : getField a cfg.key = .jnum qa) (hb : getField b cfg.key = .jnum qb) :
    jsCompare cfg a b =
      (match cfg.direction with | .asc => numCmp qa qb | .desc => numCmp qb qa) := by
  simp only [jsCompare, ha, hb]
  by_cases h : qa = qb
  · subst h
    cases cfg.direction <;> simp [numCmp]
  · have hne : (JsVal.jnum qa == JsVal.jnum qb) = false := by simp [h]
    cases cfg.direction <;> simp [hne]

/-- The comparator on two string key values reduces to the
direction-adjusted locale comparison. -/
lemma jsCompare_str_str (cfg : SortConfig) (a b : ElectionRecord) (sa sb : String)
    (ha : getField a cfg.key = .jstr sa) (hb : getField b cfg.key = .jstr sb) :
    jsCompare cfg a b =
      (match cfg.direction with
       | .asc => localeCompare sa sb
       | .desc => localeCompare sb sa) := by
  simp only [jsCompare, ha, hb]
  by_cases h : sa = sb
  · subst h
    cases cfg.direction <;> simp [localeCompare]
  · have hne : (JsVal.jstr sa == JsVal.jstr sb) = false := by simp [h]
    cases cfg.direction <;> simp [hne, JsVal.jsToString]

/-- A `null` key value sorts after any non-`null` one, in either
direction. -/
lemma jsCompare_null_left (cfg : SortConfig) (a b : ElectionRecord)
    (ha : getField a cfg.key = .jnull) (hb : getField b cfg.key ≠ .jnull) :
    jsCompare cfg a b = 1 := by
  simp only [jsCompare, ha]
  have h1 : (JsVal.jnull == getField b cfg.key) = false := by
    cases hgf : getField b cfg.key <;> simp_all
  simp [h1]

/-- A non-`null` key value sorts before any `null` one, in either
direction. -/
lemma jsCompare_null_right (cfg : SortConfig) (a b : ElectionRecord)
    (ha : getField a cfg.key ≠ .jnull) (hb : getField b cfg.key = .jnull) :
    jsCompare cfg a b = -1 := by
  simp only [jsCompare, hb]
  have h1 : (getField a cfg.key == JsVal.jnull) = false := by
    cases hgf : getField a cfg.key <;> simp_all
  simp [h1]

/-- Two `null` key values tie. -/
lemma jsCompare_null_null (cfg : SortConfig) (a b : ElectionRecord)
    (ha : getField a cfg.key = .jnull) (hb : getField b cfg.key = .jnull) :
    jsCompare cfg a b = 0 := by
  simp [jsCompare, ha, hb]

/-- Records with identical key values tie (the comparator's leading
`===` branch). -/
lemma jsCompare_eq_key (cfg : SortConfig) (a b : ElectionRecord)
    (h : getField a cfg.key = getField b cfg.key) : jsCompare cfg a b = 0 := by
  simp [jsCompare, h]

/-- The numeric table columns. -/
def numericKey : SortKey → Bool
  | .Age | .Votes | .N_Cand | .Electors | .Turnout_Percentage | .Vote_Share_Percentage
  | .Margin | .Margin_Percentage | .Contested | .No_Terms | .Position | .Year => true
  | _ => false

/-- A numeric column's key value is a number or `null`. -/
lemma getField_num_shape (k : SortKey) (hk : numericKey k = true) (r : ElectionRecord) :
    (∃ q, getField r k = .jnum q) ∨ getField r k = .jnull := by
  cases k <;>
    first
      | exact absurd hk (by decide)
      | (simp only [getField]; split <;> simp)

/-- A text column's key value is a string or `null`. -/
lemma getField_str_shape (k : SortKey) (hk : numericKey k = false) (r : ElectionRecord) :
    (∃ s, getField r k = .jstr s) ∨ getField r k = .jnull := by
  cases k <;>
    first
      | exact absurd hk (by decide)
      | (simp only [getField]; split <;> simp)

/-- Order model for an ascending numeric column: key values embed into
`WithTop ℚ`, `null` at the top. -/
def fNumAsc (k : SortKey) (r : ElectionRecord) : WithTop ℚ :=
  match getField r k with
  | .jnum q => (q : WithTop ℚ)
  | _ => ⊤

/-- Order model for a descending numeric column. -/
def fNumDesc (k : SortKey) (r : ElectionRecord) : WithTop ℚᵒᵈ :=
  match getField r k with
  | .jnum q => ((OrderDual.toDual q : ℚᵒᵈ) : WithTop ℚᵒᵈ)
  | _ => ⊤

/-- Order model for an ascending text column. -/
def fStrAsc (k : SortKey) (r : ElectionRecord) : WithTop String :=
  match getField r k with
  | .jstr s => (s : WithTop String)
  | _ => ⊤

/-- Order model for a descending text column. -/
def fStrDesc (k : SortKey) (r : ElectionRecord) : WithTop Stringᵒᵈ :=
  match getField r k with
  | .jstr s => ((OrderDual.toDual s : Stringᵒᵈ) : WithTop Stringᵒᵈ)
  | _ => ⊤

/-- On a numeric column sorted ascending, the comparator is modelled by
the `WithTop ℚ` order. -/
lemma jsCompare_model_num_asc (k : SortKey) (hk : numericKey k = true)
    (a b : ElectionRecord) :
    (jsCompare ⟨k, .asc⟩ a b < 0 ↔ fNumAsc k a < fNumAsc k b) ∧
    (jsCompare ⟨k, .asc⟩ a b = 0 ↔ fNumAsc k a = fNumAsc k b) := by
  rcases getField_num_shape k hk a with ⟨qa, ha⟩ | ha <;>
    rcases getField_num_shape k hk b with ⟨qb, hb⟩ | hb
  · rw [jsCompare_num_num ⟨k, .asc⟩ a b qa qb ha hb]
    simp [fNumAsc, ha, hb, numCmp_lt_iff, numCmp_eq_iff, WithTop.coe_lt_coe]
  · rw [jsCompare_null_right ⟨k, .asc⟩ a b (by rw [ha]; simp) hb]
    simp [fNumAsc, ha, hb, WithTop.coe_lt_top]
  · rw [jsCompare_null_left ⟨k, .asc⟩ a b ha (by rw [hb]; simp)]
    simp [fNumAsc, ha, hb, WithTop.not_top_lt]
  · rw [jsCompare_null_null ⟨k, .asc⟩ a b ha hb]
    simp [fNumAsc, ha, hb]

/-- On a numeric column sorted descending, the comparator is modelled by
the dual `WithTop ℚᵒᵈ` order (`null` still at the top). -/
lemma jsCompare_model_num_desc (k : SortKey) (hk : numericKey k = true)
    (a b : ElectionRecord) :
    (jsCompare ⟨k, .desc⟩ a b < 0 ↔ fNumDesc k a < fNumDesc k b) ∧
    (jsCompare ⟨k, .desc⟩ a b = 0 ↔ fNumDesc k a = fNumDesc k b) := by
  rcases getField_num_shape k hk a with ⟨qa, ha⟩ | ha <;>
    rcases getField_num_shape k hk b with ⟨qb, hb⟩ | hb
  · rw [jsCompare_num_num ⟨k, .desc⟩ a b qa qb ha hb]
    constructor
    · rw [show ((match (⟨k, .desc⟩ : SortConfig).direction with
        | SortDirection.asc => numCmp qa qb
        | SortDirection.desc => numCmp qb qa) : Int) = numCmp qb qa from rfl]
      simp [fNumDesc, ha, hb, numCmp_lt_iff, WithTop.coe_lt_coe]
    · rw [show ((match (⟨k, .desc⟩ : SortConfig).direction with
        | SortDirection.asc => numCmp qa qb
        | SortDirection.desc => numCmp qb qa) : Int) = numCmp qb qa from rfl]
      rw [numCmp_eq_iff]
      simp [fNumDesc, ha, hb, eq_comm]
  · rw [jsCompare_null_right ⟨k, .desc⟩ a b (by rw [ha]; simp) hb]
    simp [fNumDesc, ha, hb, WithTop.coe_lt_top]
  · rw [jsCompare_null_left ⟨k, .desc⟩ a b ha (by rw [hb]; simp)]
    simp [fNumDesc, ha, hb, WithTop.not_top_lt]
  · rw [jsCompare_null_null ⟨k, .desc⟩ a b ha hb]
    simp [fNumDesc, ha, hb]

/-- On a text column sorted ascending, the comparator is modelled by the
`WithTop String` order. -/
lemma jsCompare_model_str_asc (k : SortKey) (hk : numericKey k = false)
    (a b : ElectionRecord) :
    (jsCompare ⟨k, .asc⟩ a b < 0 ↔ fStrAsc k a < fStrAsc k b) ∧
    (jsCompare ⟨k, .asc⟩ a b = 0 ↔ fStrAsc k a = fStrAsc k b) := by
  rcases getField_str_shape k hk a with ⟨sa, ha⟩ | ha <;>
    rcases getField_str_shape k hk b with ⟨sb, hb⟩ | hb
  · rw [jsCompare_str_str ⟨k, .asc⟩ a b sa sb ha hb]
    simp [fStrAsc, ha, hb, localeCompare_lt_iff, localeCompare_eq_iff, WithTop.coe_lt_coe]
  · rw [jsCompare_null_right ⟨k, .asc⟩ a b (by rw [ha]; simp) hb]
    simp [fStrAsc, ha, hb, WithTop.coe_lt_top]
  · rw [jsCompare_null_left ⟨k, .asc⟩ a b ha (by rw [hb]; simp)]
    simp [fStrAsc, ha, hb, WithTop.not_top_lt]
  · rw [jsCompare_null_null ⟨k, .asc⟩ a b ha hb]
    simp [fStrAsc, ha, hb]

/-- On a text column sorted descending, the comparator is modelled by
the dual `WithTop Stringᵒᵈ` order (`null` still at the top). -/
lemma jsCompare_model_str_desc (k : SortKey) (hk : numericKey k = false)
    (a b : ElectionRecord) :
    (jsCompare ⟨k, .desc⟩ a b < 0 ↔ fStrDesc k a < fStrDesc k b) ∧
    (jsCompare ⟨k, .desc⟩ a b = 0 ↔ fStrDesc k a = fStrDesc k b) := by
  rcases getField_str_shape k hk a with ⟨sa, ha⟩ | ha <;>
    rcases getField_str_shape k hk b with ⟨sb, hb⟩ | hb
  · rw [jsCompare_str_str ⟨k, .desc⟩ a b sa sb ha hb]
    constructor
    · rw [show ((match (⟨k, .desc⟩ : SortConfig).direction with
        | SortDirection.asc => localeCompare sa sb
        | SortDirection.desc => localeCompare sb sa) : Int) = localeCompare sb sa from rfl]
      simp [fStrDesc, ha, hb, localeCompare_lt_iff, WithTop.coe_lt_coe]
    · rw [show ((match (⟨k, .desc⟩ : SortConfig).direction with
        | SortDirection.asc => localeCompare sa sb
        | SortDirection.desc => localeCompare sb sa) : Int) = localeCompare sb sa from rfl]
      rw [localeCompare_eq_iff]
      simp [fStrDesc, ha, hb, eq_comm]
  · rw [jsCompare_null_right ⟨k, .desc⟩ a b (by rw [ha]; simp) hb]
    simp [fStrDesc, ha, hb, WithTop.coe_lt_top]
  · rw [jsCompare_null_left ⟨k, .desc⟩ a b ha (by rw [hb]; simp)]
    simp [fStrDesc, ha, hb, WithTop.not_top_lt]
  · rw [jsCompare_null_null ⟨k, .desc⟩ a b ha hb]
    simp [fStrDesc, ha, hb]

/-- An integer comparator that is order-reflected by `f` is
non-positive exactly when `f` is non-decreasing. -/
lemma cmp_le_iff_of_model {α β : Type} [LinearOrder β]
    (cmp : α → α → Int) (f : α → β)
    (hlt : ∀ a b, cmp a b < 0 ↔ f a < f b)
    (heq : ∀ a b, cmp a b = 0 ↔ f a = f b) (a b : α) :
    cmp a b ≤ 0 ↔ f a ≤ f b := by
  constructor
  · intro h
    rcases (by omega : cmp a b < 0 ∨ cmp a b = 0) with h' | h'
    · exact le_of_lt ((hlt a b).mp h')
    · exact le_of_eq ((heq a b).mp h')
  · intro h
    rcases lt_or_eq_of_le h with h' | h'
    · exact le_of_lt ((hlt a b).mpr h')
    · exact le_of_eq ((heq a b).mpr h')

/-- Stable sort by an order-reflected integer comparator: the result is
pairwise non-decreasing, and every comparator-tied class keeps its
input order (expressed through `filter`). -/
lemma sortModel_all {α β : Type} [LinearOrder β]
    (cmp : α → α → Int) (f : α → β)
    (hlt : ∀ a b, cmp a b < 0 ↔ f a < f b)
    (heq : ∀ a b, cmp a b = 0 ↔ f a = f b) (l : List α) :
    ((l.mergeSort (fun a b => decide (cmp a b ≤ 0))).Pairwise (fun a b => cmp a b ≤ 0)) ∧
    (∀ p : α → Bool, (∀ x y, p x = true → p y = true → cmp x y ≤ 0) →
      (l.mergeSort (fun a b => decide (cmp a b ≤ 0))).filter p = l.filter p) := by
  have hle := cmp_le_iff_of_model cmp f hlt heq
  have htrans : ∀ a b c : α, decide (cmp a b ≤ 0) = true → decide (cmp b c ≤ 0) = true →
      decide (cmp a c ≤ 0) = true := by
    intro a b c hab hbc
    rw [decide_eq_true_eq] at hab hbc ⊢
    exact (hle a c).mpr (le_trans ((hle a b).mp hab) ((hle b c).mp hbc))
  have htotal : ∀ a b : α, (decide (cmp a b ≤ 0) || decide (cmp b a ≤ 0)) = true := by
    intro a b
    rcases le_total (f a) (f b) with h | h
    · simp [decide_eq_true_eq, (hle a b).mpr h]
    · simp [decide_eq_true_eq, (hle b a).mpr h]
  constructor
  · exact (List.sorted_mergeSort htrans htotal l).imp fun h => of_decide_eq_true h
  · intro p hp
    have hpw : (l.filter p).Pairwise (fun a b => decide (cmp a b ≤ 0) = true) := by
      refine List.pairwise_of_forall_mem_list ?_
      intro a ha b hb
      exact decide_eq_true (hp a b (List.of_mem_filter ha) (List.of_mem_filter hb))
    have hsub := List.sublist_mergeSort htrans htotal hpw (List.filter_sublist l)
    have hsub2 := hsub.filter p
    have hidem : (l.filter p).filter p = l.filter p :=
      List.filter_eq_self.mpr fun a ha => List.of_mem_filter ha
    rw [hidem] at hsub2
    have hperm := (List.mergeSort_perm l (fun a b => decide (cmp a b ≤ 0))).filter p
    exact (hsub2.eq_of_length hperm.length_eq.symm).symm

/-- C6: sort semantics — with a sort key set, the engine's sort is a
permutation of its input; the comparator compares two numeric key
values numerically and two string key values as (locale) strings, both
direction-adjusted; records with a `null` key value come after all
records with a value, regardless of direction; and records with equal
key values (comparator ties) keep their relative input order. -/
theorem spec_C6 :
    ∀ (S : FilterState) (cfg : SortConfig) (R : List ElectionRecord),
      S.sortConfig = some cfg →
      (sortStep S R).Perm R ∧
      (∀ a b qa qb, getField a cfg.key = .jnum qa → getField b cfg.key = .jnum qb →
        ((jsCompare cfg a b < 0 ↔
           (match cfg.direction with | .asc => qa < qb | .desc => qb < qa)) ∧
         (jsCompare cfg a b = 0 ↔ qa = qb))) ∧
      (∀ a b sa sb, getField a cfg.key = .jstr sa → getField b cfg.key = .jstr sb →
        jsCompare cfg a b =
          (match cfg.direction with
           | .asc => localeCompare sa sb
           | .desc => localeCompare sb sa)) ∧
      ((sortStep S R).Pairwise
        (fun a b => getField a cfg.key = JsVal.jnull → getField b cfg.key = JsVal.jnull)) ∧
      (∀ v : JsVal,
        (sortStep S R).filter (fun r => getField r cfg.key == v) =
          R.filter (fun r => getField r cfg.key == v)) := by
  intro S cfg R hcfg
  have hsort : sortStep S R = R.mergeSort (fun a b => decide (jsCompare cfg a b ≤ 0)) := by
    simp [sortStep, hcfg]
  obtain ⟨key, dir⟩ := cfg
  have hall :
      ((R.mergeSort (fun a b => decide (jsCompare ⟨key, dir⟩ a b ≤ 0))).Pairwise
        (fun a b => jsCompare ⟨key, dir⟩ a b ≤ 0)) ∧
      (∀ p : ElectionRecord → Bool,
        (∀ x y, p x = true → p y = true → jsCompare ⟨key, dir⟩ x y ≤ 0) →
        (R.mergeSort (fun a b => decide (jsCompare ⟨key, dir⟩ a b ≤ 0))).filter p =
          R.filter p) := by
    rcases hnk : numericKey key with _ | _ <;> cases dir
    · exact sortModel_all (jsCompare ⟨key, .asc⟩) (fStrAsc key)
        (fun a b => (jsCompare_model_str_asc key hnk a b).1)
        (fun a b => (jsCompare_model_str_asc key hnk a b).2) R
    · exact sortModel_all (jsCompare ⟨key, .desc⟩) (fStrDesc key)
        (fun a b => (jsCompare_model_str_desc key hnk a b).1)
        (fun a b => (jsCompare_model_str_desc key hnk a b).2) R
    · exact sortModel_all (jsCompare ⟨key, .asc⟩) (fNumAsc key)
        (fun a b => (jsCompare_model_num_asc key hnk a b).1)
        (fun a b => (jsCompare_model_num_asc key hnk a b).2) R
    · exact sortModel_all (jsCompare ⟨key, .desc⟩) (fNumDesc key)
        (fun a b => (jsCompare_model_num_desc key hnk a b).1)
        (fun a b => (jsCompare_model_num_desc key hnk a b).2) R
  refine ⟨?_, ?_, ?_, ?_, ?_⟩
  · rw [hsort]
    exact List.mergeSort_perm R _
  · intro a b qa qb ha hb
    rw [jsCompare_num_num ⟨key, dir⟩ a b qa qb ha hb]
    cases dir
    · exact ⟨numCmp_lt_iff qa qb, numCmp_eq_iff qa qb⟩
    · exact ⟨numCmp_lt_iff qb qa, (numCmp_eq_iff qb qa).trans eq_comm⟩
  · intro a b sa sb ha hb
    exact jsCompare_str_str ⟨key, dir⟩ a b sa sb ha hb
  · rw [hsort]
    refine hall.1.imp ?_
    intro a b hab hna
    by_contra hnb
    have := jsCompare_null_left ⟨key, dir⟩ a b hna hnb
    omega
  · intro v
    rw [hsort]
    refine hall.2 _ ?_
    intro x y hx hy
    have hxv : getField x key = v := by simpa using hx
    have hyv : getField y key = v := by simpa using hy
    have := jsCompare_eq_key ⟨key, dir⟩ x y (hxv.trans hyv.symm)
    omega

/-- Witness for C6: sorting the scenario dataset by margin ascending
permutes it. -/
theorem spec_C6_witness :
    (sortStep { sortConfig := some ⟨.Margin, .asc⟩ } chennaiData).Perm chennaiData :=
  (spec_C6 { sortConfig := some ⟨.Margin, .asc⟩ } ⟨.Margin, .asc⟩ chennaiData rfl).1
